import Mathlib

deriving instance DecidableEq for Except

/-!
Shallow embedding of the session-based user-authentication service in
src/0x03-user_authentication_service (user.py, db.py, auth.py), together
with proofs about its registration, login, session and password-reset
operations.  Machine-level collaborators (sqlalchemy Query.one, bcrypt,
uuid) are modelled by their documented behaviour; everything the Python
files themselves do is translated statement by statement.
-/

namespace AuthService

/-- Python exceptions that the embedded code can raise or catch:
sqlalchemy NoResultFound and MultipleResultsFound raised by Query.one,
InvalidRequestError raised by filter_by on a non-mapped attribute name,
ValueError raised by the Auth methods and by bcrypt on a malformed hash,
AttributeError raised by calling a method an object lacks (such as
encode on bytes), and a catch-all constructor standing for any other
exception, since get_user_from_session_id and destroy_session catch
plain Exception. -/
inductive PyError where
  | noResultFound
  | multipleResultsFound
  | invalidRequestError
  | valueError (msg : String)
  | attributeError (msg : String)
  | otherExc (msg : String)
  deriving DecidableEq, Repr

/-- Textual content of a Python str or bytes value in hashed-password
position: bcrypt.hashpw output determines the hashed password and the
salt (bcrypt embeds the salt in its output and, idealising the hash as
collision-free, distinct inputs give distinct outputs), while
Content.plain covers any other text, which bcrypt cannot parse as one
of its hashes. -/
inductive Content where
  | bh (password : String) (salt : Nat)
  | plain (text : String)
  deriving DecidableEq, Repr

/-- A Python runtime value as far as the authentication code stores or
passes one: None, a str, a bytes value, or an int.  The
hashed_password column needs this type because its two writers disagree
on the representation: register_user writes a str and update_password
writes bytes. -/
inductive PyObj where
  | pynone
  | pystr (c : Content)
  | pybytes (c : Content)
  | pyint (n : Nat)
  deriving DecidableEq, Repr

/-- One row of the users table declared in user.py: integer primary
key, non-nullable email and hashed_password, nullable session_id and
reset_token. -/
structure User where
  id : Nat
  email : String
  hashed_password : PyObj
  session_id : Option String
  reset_token : Option String
  deriving DecidableEq, Repr

/-- Combined state of one Auth object with its DB: the committed user
rows, the next autoincrement primary key (sqlite assigns 1, 2, ...) and
an entropy counter modelling the nondeterministic supply consumed by
bcrypt.gensalt and uuid.uuid4, one fresh value per call. -/
structure AuthState where
  users : List User
  nextId : Nat
  counter : Nat
  deriving DecidableEq, Repr

/-- State of a freshly constructed Auth: DB drops and recreates the
users table, so no rows, first primary key 1. -/
def emptyState : AuthState := { users := [], nextId := 1, counter := 0 }

/-- Model of str(uuid.uuid4()): an opaque string per consumed entropy
value, distinct strings for distinct draws. -/
def uuidStr (n : Nat) : String := String.mk (List.replicate (n + 1) 'u')

/-- Model of bcrypt.gensalt: draws a fresh salt from the entropy
supply. -/
def gensalt (s : AuthState) : Nat × AuthState :=
  (s.counter, { s with counter := s.counter + 1 })

/-- Model of bcrypt.hashpw: the produced hash content records the
hashed password and the embedded salt. -/
def hashpw (password : String) (salt : Nat) : Content :=
  Content.bh password salt

/-- Model of bcrypt.checkpw: re-derives the hash with the salt embedded
in the stored value, so it is true exactly when the candidate equals
the hashed password; on content that does not parse as a bcrypt hash
the library raises ValueError, as its documentation states. -/
def checkpw (candidate : String) (stored : Content) : Except PyError Bool :=
  match stored with
  | Content.bh p _ => Except.ok (decide (p = candidate))
  | Content.plain _ => Except.error (PyError.valueError "Invalid salt")

/-- Python value.encode: a method of str only; bytes, None and int lack
it, so the call raises AttributeError. -/
def pyEncodeUtf8 : PyObj → Except PyError Content
  | PyObj.pystr c => Except.ok c
  | _ => Except.error (PyError.attributeError "encode")

/-- Python value.decode: a method of bytes only (bcrypt output is
ascii, so decoding a bcrypt hash never fails); other values raise
AttributeError. -/
def pyDecodeUtf8 : PyObj → Except PyError PyObj
  | PyObj.pybytes c => Except.ok (PyObj.pystr c)
  | _ => Except.error (PyError.attributeError "decode")

/-- One keyword argument, key=value, as passed to DB.find_user_by or
DB.update_user: either one of the five mapped columns carrying a value
of the type the callers pass for it, or any other attribute name with
an arbitrary value. -/
inductive FieldVal where
  | id (v : Nat)
  | email (v : String)
  | hashed_password (v : PyObj)
  | session_id (v : Option String)
  | reset_token (v : Option String)
  | nonColumn (key : String) (v : PyObj)
  deriving DecidableEq, Repr

/-- The keyword of a kwarg. -/
def kwargKey : FieldVal → String
  | FieldVal.id _ => "id"
  | FieldVal.email _ => "email"
  | FieldVal.hashed_password _ => "hashed_password"
  | FieldVal.session_id _ => "session_id"
  | FieldVal.reset_token _ => "reset_token"
  | FieldVal.nonColumn k _ => k

/-- Whether the kwarg names a mapped column of the users table. -/
def isColumnKey : FieldVal → Bool
  | FieldVal.nonColumn _ _ => false
  | _ => true

/-- Whether a row satisfies filter_by with this single kwarg. -/
def matchesField (u : User) : FieldVal → Bool
  | FieldVal.id v => decide (u.id = v)
  | FieldVal.email v => decide (u.email = v)
  | FieldVal.hashed_password v => decide (u.hashed_password = v)
  | FieldVal.session_id v => decide (u.session_id = v)
  | FieldVal.reset_token v => decide (u.reset_token = v)
  | FieldVal.nonColumn _ _ => false

/-- The five mapped column names of the users table. -/
def userColumns : List String :=
  ["id", "email", "hashed_password", "session_id", "reset_token"]

/-- Non-column attribute names that a User instance nevertheless
exposes, so Python hasattr answers true for them: a representative
sample containing the tablename configuration attribute declared in the
User class body in user.py and the metadata attribute inherited from
the declarative Base.  The real attribute set is larger; the model only
needs that these names are attributes while not being columns. -/
def classAttrs : List String := ["__tablename__", "metadata"]

/-- Model of Python hasattr(user, key) as tested by DB.update_user:
true for every mapped column and also for the non-column attributes the
instance exposes. -/
def hasattrUser : FieldVal → Bool
  | FieldVal.nonColumn k _ => classAttrs.contains k
  | _ => true

/-- Model of setattr(user, key, value): writing a mapped column changes
that field of the row; writing a non-column attribute only creates a
plain instance attribute and leaves every column of the row unchanged. -/
def doSetattr (u : User) : FieldVal → User
  | FieldVal.id v => { u with id := v }
  | FieldVal.email v => { u with email := v }
  | FieldVal.hashed_password v => { u with hashed_password := v }
  | FieldVal.session_id v => { u with session_id := v }
  | FieldVal.reset_token v => { u with reset_token := v }
  | FieldVal.nonColumn _ _ => u

/-- DB.find_user_by with a single kwarg: Query.one over the filtered
rows — NoResultFound on zero rows, MultipleResultsFound on more than
one; filter_by with a non-mapped attribute name raises
InvalidRequestError.  find_user_by re-raises NoResultFound and
InvalidRequestError with fresh messages, leaving the exception types
unchanged. -/
def find_user_by (s : AuthState) (k : FieldVal) : Except PyError User :=
  if isColumnKey k then
    match s.users.filter (fun u => matchesField u k) with
    | [] => Except.error PyError.noResultFound
    | [u] => Except.ok u
    | _ :: _ :: _ => Except.error PyError.multipleResultsFound
  else Except.error PyError.invalidRequestError

/-- Replace every row whose primary key equals uid by its image under
f.  DB.update_user mutates the single object its lookup returned; the
lookup only succeeds when exactly one row has that key, so mapping over
all rows with this guard is the same update. -/
def replaceUser (s : AuthState) (uid : Nat) (f : User → User) : AuthState :=
  { s with users := s.users.map (fun u => if u.id = uid then f u else u) }

/-- The kwarg loop of DB.update_user: setattr for each key that passes
hasattr, ValueError on the first key that does not; the keys already
processed stay applied, matching the in-place mutation performed before
the raise. -/
def update_user_go (uid : Nat) : AuthState → List FieldVal → Except PyError Unit × AuthState
  | s, [] => (Except.ok (), s)
  | s, k :: rest =>
    if hasattrUser k then
      update_user_go uid (replaceUser s uid (fun u => doSetattr u k)) rest
    else
      (Except.error (PyError.valueError (kwargKey k ++ " is not a valid attribute of User")), s)

/-- DB.update_user: look the row up by primary key (an error from
find_user_by propagates, nothing is caught here), then run the kwarg
loop and commit. -/
def update_user (s : AuthState) (user_id : Nat) (kwargs : List FieldVal) :
    Except PyError Unit × AuthState :=
  match find_user_by s (FieldVal.id user_id) with
  | Except.error e => (Except.error e, s)
  | Except.ok _ => update_user_go user_id s kwargs

/-- DB.add_user: construct the row, add it and commit; sqlite assigns
the next autoincrement primary key; session_id and reset_token start
NULL. -/
def add_user (s : AuthState) (email : String) (hashed_password : PyObj) :
    User × AuthState :=
  let u : User :=
    { id := s.nextId, email := email, hashed_password := hashed_password,
      session_id := none, reset_token := none }
  (u, { s with users := s.users ++ [u], nextId := s.nextId + 1 })

/-- DB._hash_password and Auth._hash_password, two textually identical
methods in the source: bcrypt.gensalt then bcrypt.hashpw on the encoded
password, returning the salted hash as bytes. -/
def hash_password (s : AuthState) (password : String) : PyObj × AuthState :=
  let (salt, s1) := gensalt s
  (PyObj.pybytes (hashpw password salt), s1)

/-- Auth._generate_uuid: str(uuid.uuid4()), drawing one entropy
value. -/
def generate_uuid (s : AuthState) : String × AuthState :=
  (uuidStr s.counter, { s with counter := s.counter + 1 })

/-- Auth.register_user: lookup-before-insert; the NoResultFound branch
hashes the password, decodes the hash bytes to a str and inserts the
row; the found branch raises ValueError, which the except NoResultFound
clause does not catch, so it propagates. -/
def register_user (s : AuthState) (email password : String) :
    Except PyError User × AuthState :=
  match find_user_by s (FieldVal.email email) with
  | Except.ok _ =>
    (Except.error (PyError.valueError ("User " ++ email ++ " already exists")), s)
  | Except.error PyError.noResultFound =>
    let (hp, s1) := hash_password s password
    match pyDecodeUtf8 hp with
    | Except.ok v =>
      let (u, s2) := add_user s1 email v
      (Except.ok u, s2)
    | Except.error e => (Except.error e, s1)
  | Except.error e => (Except.error e, s)

/-- Auth.valid_login: find the row by email, then
bcrypt.checkpw(password.encode, user.hashed_password.encode); only
NoResultFound is caught and turned into False; any other exception,
including the AttributeError from .encode on a bytes hashed_password
and the ValueError from a malformed stored hash, propagates to the
caller. -/
def valid_login (s : AuthState) (email password : String) :
    Except PyError Bool × AuthState :=
  match find_user_by s (FieldVal.email email) with
  | Except.error PyError.noResultFound => (Except.ok false, s)
  | Except.error e => (Except.error e, s)
  | Except.ok user =>
    match pyEncodeUtf8 user.hashed_password with
    | Except.error e => (Except.error e, s)
    | Except.ok c => (checkpw password c, s)

/-- Auth.create_session: find the row by email, generate a uuid,
persist it to session_id and return it; NoResultFound anywhere in the
try block yields the sentinel None instead of an exception. -/
def create_session (s : AuthState) (email : String) :
    Except PyError (Option String) × AuthState :=
  match find_user_by s (FieldVal.email email) with
  | Except.error PyError.noResultFound => (Except.ok none, s)
  | Except.error e => (Except.error e, s)
  | Except.ok user =>
    let (sid, s1) := generate_uuid s
    match update_user s1 user.id [FieldVal.session_id (some sid)] with
    | (Except.ok _, s2) => (Except.ok (some sid), s2)
    | (Except.error PyError.noResultFound, s2) => (Except.ok none, s2)
    | (Except.error e, s2) => (Except.error e, s2)

/-- The try body result of Auth.get_user_from_session_id: the except
Exception clause maps every error, whatever it is, to None. -/
def resolve_result (r : Except PyError User) : Option User :=
  match r with
  | Except.ok u => some u
  | Except.error _ => none

/-- Auth.get_user_from_session_id: a None session id short-circuits to
None; otherwise find the row by session_id under a catch-all except
that returns None on any exception. -/
def get_user_from_session_id (s : AuthState) (session_id : Option String) :
    Option User × AuthState :=
  match session_id with
  | none => (none, s)
  | some _ => (resolve_result (find_user_by s (FieldVal.session_id session_id)), s)

/-- Auth.destroy_session: find the row by id and clear its session_id;
the except Exception / pass clause absorbs every error, so the call
never raises and is a no-op when the lookup fails. -/
def destroy_session (s : AuthState) (user_id : Nat) :
    Except PyError Unit × AuthState :=
  match find_user_by s (FieldVal.id user_id) with
  | Except.error _ => (Except.ok (), s)
  | Except.ok user =>
    (Except.ok (), (update_user s user.id [FieldVal.session_id none]).2)

/-- Auth.get_reset_password_token: ValueError for an unknown email;
otherwise generate a uuid, persist it to reset_token and return it. -/
def get_reset_password_token (s : AuthState) (email : String) :
    Except PyError String × AuthState :=
  match find_user_by s (FieldVal.email email) with
  | Except.error PyError.noResultFound =>
    (Except.error (PyError.valueError ("No user found with email: " ++ email)), s)
  | Except.error e => (Except.error e, s)
  | Except.ok user =>
    let (tok, s1) := generate_uuid s
    match update_user s1 user.id [FieldVal.reset_token (some tok)] with
    | (Except.ok _, s2) => (Except.ok tok, s2)
    | (Except.error e, s2) => (Except.error e, s2)

/-- Auth.update_password: find the row by reset_token (ValueError
Invalid reset token when no row has it), hash the new password and
write the raw bytes hash together with reset_token None.  Unlike
register_user, the bytes are not decoded before being stored. -/
def update_password (s : AuthState) (reset_token password : String) :
    Except PyError Unit × AuthState :=
  match find_user_by s (FieldVal.reset_token (some reset_token)) with
  | Except.error PyError.noResultFound =>
    (Except.error (PyError.valueError "Invalid reset token"), s)
  | Except.error e => (Except.error e, s)
  | Except.ok user =>
    let (hp, s1) := hash_password s password
    match update_user s1 user.id [FieldVal.hashed_password hp, FieldVal.reset_token none] with
    | (Except.ok _, s2) => (Except.ok (), s2)
    | (Except.error e, s2) => (Except.error e, s2)

/-! Helper lemmas about lookups and row updates. -/

lemma find_ok_iff (s : AuthState) (k : FieldVal) (u : User) (hk : isColumnKey k = true) :
    find_user_by s k = Except.ok u ↔
      s.users.filter (fun v => matchesField v k) = [u] := by
  unfold find_user_by
  rw [if_pos hk]
  cases h : s.users.filter (fun v => matchesField v k) with
  | nil => simp
  | cons a t =>
    cases t with
    | nil => simp
    | cons b t2 => simp

lemma find_noRes_iff (s : AuthState) (k : FieldVal) (hk : isColumnKey k = true) :
    find_user_by s k = Except.error PyError.noResultFound ↔
      s.users.filter (fun v => matchesField v k) = [] := by
  unfold find_user_by
  rw [if_pos hk]
  cases h : s.users.filter (fun v => matchesField v k) with
  | nil => simp
  | cons a t =>
    cases t with
    | nil => simp
    | cons b t2 => simp

lemma find_ok_mem (s : AuthState) (k : FieldVal) (u : User)
    (h : find_user_by s k = Except.ok u) :
    u ∈ s.users ∧ matchesField u k = true := by
  have hk : isColumnKey k = true := by
    cases k <;> first | rfl | (exfalso; simp [find_user_by, isColumnKey] at h)
  have hfil := (find_ok_iff s k u hk).mp h
  have : u ∈ s.users.filter (fun v => matchesField v k) := by
    rw [hfil]; exact List.mem_singleton.mpr rfl
  exact List.mem_filter.mp this

lemma filter_of_none (l : List User) (p : User → Bool)
    (h : ∀ v ∈ l, p v = false) : l.filter p = [] :=
  List.filter_eq_nil_iff.mpr (fun v hv => by rw [h v hv]; exact Bool.false_ne_true)

lemma filter_id_singleton (l : List User) (u : User)
    (hm : u ∈ l) (hnd : (l.map (fun v => v.id)).Nodup) :
    l.filter (fun v => decide (v.id = u.id)) = [u] := by
  induction l with
  | nil => cases hm
  | cons a t ih =>
    simp only [List.map_cons, List.nodup_cons] at hnd
    rcases List.mem_cons.mp hm with rfl | hmt
    · rw [List.filter_cons_of_pos (by simp)]
      have ht : t.filter (fun v => decide (v.id = u.id)) = [] := by
        apply filter_of_none
        intro v hv
        simp only [decide_eq_false_iff_not]
        intro hvid
        exact hnd.1 (by rw [← hvid]; exact List.mem_map_of_mem (fun w => w.id) hv)
      rw [ht]
    · have hne : a.id ≠ u.id := by
        intro he
        exact hnd.1 (by rw [he]; exact List.mem_map_of_mem (fun w => w.id) hmt)
      rw [List.filter_cons_of_neg (by simpa using hne)]
      exact ih hmt hnd.2

lemma filter_session_after_set (l : List User) (u : User) (t : String)
    (hm : u ∈ l) (hnd : (l.map (fun v => v.id)).Nodup)
    (hfresh : ∀ v ∈ l, v.session_id ≠ some t) :
    (l.map (fun v => if v.id = u.id then { v with session_id := some t } else v)).filter
      (fun v => decide (v.session_id = some t)) = [{ u with session_id := some t }] := by
  induction l with
  | nil => cases hm
  | cons a l2 ih =>
    simp only [List.map_cons, List.nodup_cons] at hnd
    rcases List.mem_cons.mp hm with rfl | hmt
    · simp only [List.map_cons]
      rw [if_pos trivial]
      rw [List.filter_cons_of_pos (by simp)]
      have ht : (l2.map
          (fun v => if v.id = u.id then { v with session_id := some t } else v)).filter
          (fun v => decide (v.session_id = some t)) = [] := by
        apply filter_of_none
        intro w hw
        obtain ⟨v, hv, rfl⟩ := List.mem_map.mp hw
        have hne : v.id ≠ u.id := by
          intro he
          exact hnd.1 (by rw [← he]; exact List.mem_map_of_mem (fun w => w.id) hv)
        rw [if_neg hne]
        simp only [decide_eq_false_iff_not]
        exact hfresh v (List.mem_cons_of_mem _ hv)
      rw [ht]
    · have hne : a.id ≠ u.id := by
        intro he
        exact hnd.1 (by rw [he]; exact List.mem_map_of_mem (fun w => w.id) hmt)
      simp only [List.map_cons]
      rw [if_neg hne]
      rw [List.filter_cons_of_neg (by simpa using hfresh a (List.mem_cons_self a l2))]
      exact ih hmt hnd.2 (fun v hv => hfresh v (List.mem_cons_of_mem _ hv))

lemma filter_session_after_clear (l : List User) (uid : Nat) (t : String)
    (honly : ∀ v ∈ l, v.session_id = some t → v.id = uid) :
    (l.map (fun v => if v.id = uid then { v with session_id := none } else v)).filter
      (fun v => decide (v.session_id = some t)) = [] := by
  apply filter_of_none
  intro w hw
  obtain ⟨v, hv, rfl⟩ := List.mem_map.mp hw
  by_cases hvid : v.id = uid
  · rw [if_pos hvid]
    simp
  · rw [if_neg hvid]
    simp only [decide_eq_false_iff_not]
    intro hvs
    exact hvid (honly v hv hvs)

lemma filter_map_pres (l : List User) (g : User → User) (p : User → Bool)
    (hid : ∀ v, p (g v) = p v) : (l.map g).filter p = (l.filter p).map g := by
  induction l with
  | nil => rfl
  | cons a t ih =>
    simp only [List.map_cons]
    by_cases hpa : p a = true
    · rw [List.filter_cons_of_pos (by rw [hid]; exact hpa),
        List.filter_cons_of_pos hpa, List.map_cons, ih]
    · rw [List.filter_cons_of_neg (by rw [hid]; simpa using hpa),
        List.filter_cons_of_neg (by simpa using hpa), ih]

lemma no_two_rows_same_id (s : AuthState) (uid : Nat)
    (hnd : (s.users.map (fun v => v.id)).Nodup) (a b : User) (t : List User)
    (hfil : s.users.filter (fun v => matchesField v (FieldVal.id uid)) = a :: b :: t) :
    False := by
  have hsub : (a :: b :: t).Sublist s.users := hfil ▸ List.filter_sublist s.users
  have hnd2 : ((a :: b :: t).map (fun v => v.id)).Nodup :=
    hnd.sublist (hsub.map (fun v => v.id))
  have ha : matchesField a (FieldVal.id uid) = true := by
    have : a ∈ s.users.filter (fun v => matchesField v (FieldVal.id uid)) := by
      rw [hfil]; simp
    exact (List.mem_filter.mp this).2
  have hb : matchesField b (FieldVal.id uid) = true := by
    have : b ∈ s.users.filter (fun v => matchesField v (FieldVal.id uid)) := by
      rw [hfil]; simp
    exact (List.mem_filter.mp this).2
  simp only [matchesField, decide_eq_true_eq] at ha hb
  simp only [List.map_cons, List.nodup_cons, List.mem_cons] at hnd2
  exact hnd2.1 (Or.inl (by rw [ha, hb]))

lemma update_user_go_ok_iff (uid : Nat) (s : AuthState) (ks : List FieldVal) :
    (update_user_go uid s ks).1 = Except.ok () ↔ ∀ k ∈ ks, hasattrUser k = true := by
  induction ks generalizing s with
  | nil => simp [update_user_go]
  | cons k rest ih =>
    by_cases hk : hasattrUser k = true
    · simp [update_user_go, hk, ih]
    · simp [update_user_go, hk]

/-! Concrete runs of the operations, used by the scenario theorems and
the witnesses: register a user, request a reset token, redeem it, and,
independently, open a session. -/

/-- State after register_user on the empty store. -/
def regState : AuthState := (register_user emptyState "a@x.com" "pw1").2

/-- State after get_reset_password_token on regState. -/
def resetReqState : AuthState := (get_reset_password_token regState "a@x.com").2

/-- State after update_password redeems the issued token. -/
def resetDoneState : AuthState := (update_password resetReqState (uuidStr 1) "pw2").2

/-- State after create_session on regState. -/
def sessionState : AuthState := (create_session regState "a@x.com").2

/-- A store whose single row carries a hashed_password str that is not a
bcrypt hash. -/
def c6state : AuthState :=
  { users := [{ id := 1, email := "e@x.com",
                hashed_password := PyObj.pystr (Content.plain "nothash"),
                session_id := none, reset_token := none }],
    nextId := 2, counter := 0 }

/-- A single ordinary registered row. -/
def c8row : User :=
  { id := 1, email := "e@x.com", hashed_password := PyObj.pystr (Content.bh "p" 0),
    session_id := none, reset_token := none }

/-- A store holding just c8row. -/
def c8state : AuthState := { users := [c8row], nextId := 2, counter := 1 }

/-- C1: the password-reset lifecycle.  Request on a registered email
returns a token, redemption succeeds and a second redemption fails with
the Invalid reset token ValueError, and requesting for an unregistered
email fails with the NotFound ValueError — but after redemption
valid_login raises AttributeError on both the new and the old password
instead of returning true and false: update_password stored the bcrypt
hash as raw bytes, and valid_login calls .encode on it.  The theorem
evaluates the whole run from the empty store at the failing input. -/
theorem claim1_reset_lifecycle_code_bug :
    (register_user emptyState "a@x.com" "pw1").1 = Except.ok
      { id := 1, email := "a@x.com", hashed_password := PyObj.pystr (Content.bh "pw1" 0),
        session_id := none, reset_token := none }
    ∧ (get_reset_password_token regState "a@x.com").1 = Except.ok (uuidStr 1)
    ∧ (update_password resetReqState (uuidStr 1) "pw2").1 = Except.ok ()
    ∧ (valid_login resetDoneState "a@x.com" "pw2").1
        = Except.error (PyError.attributeError "encode")
    ∧ (valid_login resetDoneState "a@x.com" "pw1").1
        = Except.error (PyError.attributeError "encode")
    ∧ (update_password resetDoneState (uuidStr 1) "pw3").1
        = Except.error (PyError.valueError "Invalid reset token")
    ∧ (get_reset_password_token resetDoneState "nobody@x.com").1
        = Except.error (PyError.valueError "No user found with email: nobody@x.com") := by
  decide

/-- C2: valid_login answers true on a matching password and false on a
mismatch or an unknown email while the stored hash is the str written
by register_user, but on the store state reached by redeeming a
password reset it raises AttributeError instead of returning a boolean,
because update_password stored the hash as bytes. -/
theorem claim2_valid_login_raises_after_reset :
    (valid_login regState "a@x.com" "pw1").1 = Except.ok true
    ∧ (valid_login regState "a@x.com" "bad").1 = Except.ok false
    ∧ (valid_login regState "other@x.com" "pw1").1 = Except.ok false
    ∧ (valid_login resetDoneState "a@x.com" "pw2").1
        = Except.error (PyError.attributeError "encode")
    ∧ (∀ b : Bool, (valid_login resetDoneState "a@x.com" "pw2").1 ≠ Except.ok b) := by
  decide

/-- C3: for an email with no row, register_user succeeds and creates a
row holding the hashed password, no session_id and no reset_token; a
second register_user with the same email then fails with the ValueError
raised on the already-exists path. -/
theorem claim3_register_unique_email (s : AuthState) (e p p2 : String)
    (h : find_user_by s (FieldVal.email e) = Except.error PyError.noResultFound) :
    (register_user s e p).1 = Except.ok
        { id := s.nextId, email := e,
          hashed_password := PyObj.pystr (Content.bh p s.counter),
          session_id := none, reset_token := none }
    ∧ (register_user (register_user s e p).2 e p2).1
        = Except.error (PyError.valueError ("User " ++ e ++ " already exists")) := by
  have hfil := (find_noRes_iff s (FieldVal.email e) rfl).mp h
  constructor
  · simp only [register_user, h, hash_password, gensalt, hashpw, pyDecodeUtf8, add_user]
  · have hs2 : (register_user s e p).2 =
        { users := s.users ++
            [{ id := s.nextId, email := e,
               hashed_password := PyObj.pystr (Content.bh p s.counter),
               session_id := none, reset_token := none }],
          nextId := s.nextId + 1, counter := s.counter + 1 } := by
      simp only [register_user, h, hash_password, gensalt, hashpw, pyDecodeUtf8, add_user]
    rw [hs2]
    have hfind2 : find_user_by
        { users := s.users ++
            [{ id := s.nextId, email := e,
               hashed_password := PyObj.pystr (Content.bh p s.counter),
               session_id := none, reset_token := none }],
          nextId := s.nextId + 1, counter := s.counter + 1 }
        (FieldVal.email e) = Except.ok
          { id := s.nextId, email := e,
            hashed_password := PyObj.pystr (Content.bh p s.counter),
            session_id := none, reset_token := none } := by
      rw [find_ok_iff _ (FieldVal.email e) _ rfl]
      rw [List.filter_append, hfil]
      simp [matchesField]
    simp only [register_user, hfind2]

/-- Witness for C3 on the empty store. -/
theorem claim3_register_unique_email_witness :
    find_user_by emptyState (FieldVal.email "a@x.com")
        = Except.error PyError.noResultFound
    ∧ ((register_user emptyState "a@x.com" "p1").1 = Except.ok
        { id := 1, email := "a@x.com", hashed_password := PyObj.pystr (Content.bh "p1" 0),
          session_id := none, reset_token := none }
      ∧ (register_user (register_user emptyState "a@x.com" "p1").2 "a@x.com" "p2").1
        = Except.error (PyError.valueError ("User " ++ "a@x.com" ++ " already exists"))) :=
  ⟨by decide, claim3_register_unique_email emptyState "a@x.com" "p1" "p2" (by decide)⟩

/-- C5: the salted hash round-trip.  checkpw on a hash of the same
password is true and on a hash of a different password is false; two
successive hash_password calls consume different salts, so they return
different stored values, while a hash of p verifies p whatever its
salt. -/
theorem claim5_hash_roundtrip (s : AuthState) (p q : String) (salt : Nat) (hpq : p ≠ q) :
    checkpw p (hashpw p salt) = Except.ok true
    ∧ checkpw p (hashpw q salt) = Except.ok false
    ∧ (hash_password s p).1 = PyObj.pybytes (Content.bh p s.counter)
    ∧ (hash_password (hash_password s p).2 p).1 = PyObj.pybytes (Content.bh p (s.counter + 1))
    ∧ (hash_password s p).1 ≠ (hash_password (hash_password s p).2 p).1
    ∧ ∀ n : Nat, checkpw p (Content.bh p n) = Except.ok true := by
  refine ⟨by simp [checkpw, hashpw], ?_, rfl, rfl, ?_, fun n => by simp [checkpw]⟩
  · simp only [checkpw, hashpw, Except.ok.injEq]
    simp only [decide_eq_false_iff_not]
    exact fun h => hpq h.symm
  · simp only [hash_password, gensalt, hashpw, ne_eq, PyObj.pybytes.injEq, Content.bh.injEq]
    intro h
    omega

/-- Witness for C5 at two distinct passwords on the empty store. -/
theorem claim5_hash_roundtrip_witness :
    "a" ≠ "b"
    ∧ (checkpw "a" (hashpw "a" 0) = Except.ok true
      ∧ checkpw "a" (hashpw "b" 0) = Except.ok false
      ∧ (hash_password emptyState "a").1 = PyObj.pybytes (Content.bh "a" 0)
      ∧ (hash_password (hash_password emptyState "a").2 "a").1
          = PyObj.pybytes (Content.bh "a" 1)
      ∧ (hash_password emptyState "a").1 ≠ (hash_password (hash_password emptyState "a").2 "a").1
      ∧ ∀ n : Nat, checkpw "a" (Content.bh "a" n) = Except.ok true) :=
  ⟨by decide, claim5_hash_roundtrip emptyState "a" "b" 0 (by decide)⟩

/-- C10: get_user_from_session_id is total and exception-free: it never
touches the state, a None session id gives none, any other session id
gives exactly the try-body result, and the catch-all handler maps every
error, whatever exception it stands for, to none while a found row
comes back as some. -/
theorem claim10_resolve_total (s : AuthState) (sid : Option String) (t : String)
    (e : PyError) (u0 : User) :
    (get_user_from_session_id s sid).2 = s
    ∧ (get_user_from_session_id s none).1 = none
    ∧ (get_user_from_session_id s (some t)).1
        = resolve_result (find_user_by s (FieldVal.session_id (some t)))
    ∧ resolve_result (Except.error e) = none
    ∧ resolve_result (Except.ok u0) = some u0 := by
  refine ⟨?_, rfl, rfl, rfl, rfl⟩
  cases sid <;> rfl

/-- C4: for a registered email, create_session returns the freshly
generated token after persisting it to the session_id of that row, and
resolving that token returns the same user with its session set; for an
email that does not resolve, create_session returns the sentinel None
result without touching the store and without raising; resolving a
token held by no row, or the None token, returns none.  The freshness
hypothesis states that the generated token is not already a session id
in the store, the uuid-collision case having probability zero. -/
theorem claim4_session_roundtrip :
    (∀ (s : AuthState) (e : String) (u : User),
      find_user_by s (FieldVal.email e) = Except.ok u →
      (s.users.map (fun v => v.id)).Nodup →
      (∀ v ∈ s.users, v.session_id ≠ some (uuidStr s.counter)) →
      (create_session s e).1 = Except.ok (some (uuidStr s.counter))
      ∧ (get_user_from_session_id (create_session s e).2 (some (uuidStr s.counter))).1
          = some { u with session_id := some (uuidStr s.counter) })
    ∧ (∀ (s : AuthState) (e : String),
      find_user_by s (FieldVal.email e) = Except.error PyError.noResultFound →
      create_session s e = (Except.ok none, s))
    ∧ (∀ (s : AuthState) (t : String),
      (∀ v ∈ s.users, v.session_id ≠ some t) →
      (get_user_from_session_id s (some t)).1 = none)
    ∧ (∀ s : AuthState, (get_user_from_session_id s none).1 = none) := by
  refine ⟨?_, ?_, ?_, fun s => rfl⟩
  · intro s e u h hnd hfresh
    obtain ⟨hm, hmf⟩ := find_ok_mem _ _ _ h
    have hfind_id : find_user_by
        { users := s.users, nextId := s.nextId, counter := s.counter + 1 }
        (FieldVal.id u.id) = Except.ok u := by
      rw [find_ok_iff { users := s.users, nextId := s.nextId, counter := s.counter + 1 }
        (FieldVal.id u.id) u rfl]
      simpa [matchesField] using filter_id_singleton s.users u hm hnd
    have hres : find_user_by
        { users := s.users.map
            (fun v => if v.id = u.id then { v with session_id := some (uuidStr s.counter) } else v),
          nextId := s.nextId, counter := s.counter + 1 }
        (FieldVal.session_id (some (uuidStr s.counter)))
        = Except.ok { u with session_id := some (uuidStr s.counter) } := by
      rw [find_ok_iff _ (FieldVal.session_id (some (uuidStr s.counter)))
        { u with session_id := some (uuidStr s.counter) } rfl]
      simpa [matchesField] using
        filter_session_after_set s.users u (uuidStr s.counter) hm hnd hfresh
    constructor
    · simp only [create_session, h, generate_uuid, update_user, hfind_id,
        update_user_go, hasattrUser, replaceUser, doSetattr, if_true]
    · simp only [create_session, h, generate_uuid, update_user, hfind_id,
        update_user_go, hasattrUser, replaceUser, doSetattr, if_true,
        get_user_from_session_id, hres, resolve_result]
  · intro s e h
    simp only [create_session, h]
  · intro s t h
    have : find_user_by s (FieldVal.session_id (some t))
        = Except.error PyError.noResultFound := by
      rw [find_noRes_iff s (FieldVal.session_id (some t)) rfl]
      apply filter_of_none
      intro v hv
      simp only [matchesField, decide_eq_false_iff_not]
      exact h v hv
    simp only [get_user_from_session_id, this, resolve_result]

/-- Witness for C4 on the store with one registered user. -/
theorem claim4_session_roundtrip_witness :
    ((create_session regState "a@x.com").1 = Except.ok (some (uuidStr 1))
      ∧ (get_user_from_session_id (create_session regState "a@x.com").2 (some (uuidStr 1))).1
          = some { id := 1, email := "a@x.com",
                   hashed_password := PyObj.pystr (Content.bh "pw1" 0),
                   session_id := some (uuidStr 1), reset_token := none })
    ∧ create_session regState "zz@x.com" = (Except.ok none, regState)
    ∧ (get_user_from_session_id regState (some "unissued")).1 = none
    ∧ (get_user_from_session_id regState none).1 = none :=
  ⟨claim4_session_roundtrip.1 regState "a@x.com"
      { id := 1, email := "a@x.com", hashed_password := PyObj.pystr (Content.bh "pw1" 0),
        session_id := none, reset_token := none } (by decide) (by decide) (by decide),
   claim4_session_roundtrip.2.1 regState "zz@x.com" (by decide),
   claim4_session_roundtrip.2.2.1 regState "unissued" (by decide),
   claim4_session_roundtrip.2.2.2 regState⟩

/-- C6 counterexample: a row whose stored hashed_password str does not
parse as a bcrypt hash makes the verification path of valid_login raise
the ValueError that bcrypt.checkpw throws on a malformed hash, instead
of returning the boolean false that the claim promises for every
hash_value string. -/
theorem claim6_counterexample :
    (valid_login c6state "e@x.com" "x").1 = Except.error (PyError.valueError "Invalid salt")
    ∧ (∀ b : Bool, (valid_login c6state "e@x.com" "x").1 ≠ Except.ok b) := by
  constructor
  · rfl
  · decide

/-- C6 amended: the verification performed by valid_login returns a
boolean for every plaintext whenever the stored hash value is a
well-formed bcrypt hash str, but on a malformed hash str bcrypt.checkpw
raises ValueError and valid_login propagates it instead of returning
false. -/
theorem claim6_verify_totality_amended :
    (∀ (s : AuthState) (e p pw : String) (salt : Nat) (u : User),
      find_user_by s (FieldVal.email e) = Except.ok u →
      u.hashed_password = PyObj.pystr (Content.bh pw salt) →
      (valid_login s e p).1 = Except.ok (decide (pw = p)))
    ∧ (∀ (s : AuthState) (e p c : String) (u : User),
      find_user_by s (FieldVal.email e) = Except.ok u →
      u.hashed_password = PyObj.pystr (Content.plain c) →
      (valid_login s e p).1 = Except.error (PyError.valueError "Invalid salt")) := by
  constructor
  · intro s e p pw salt u hf hw
    simp only [valid_login, hf, hw, pyEncodeUtf8, checkpw]
  · intro s e p c u hf hw
    simp only [valid_login, hf, hw, pyEncodeUtf8, checkpw]

/-- Witness for the amended C6: a well-formed stored hash answers a
boolean, the malformed store raises. -/
theorem claim6_verify_totality_amended_witness :
    (valid_login regState "a@x.com" "zz").1 = Except.ok false
    ∧ (valid_login c6state "e@x.com" "x").1
        = Except.error (PyError.valueError "Invalid salt") :=
  ⟨claim6_verify_totality_amended.1 regState "a@x.com" "zz" "pw1" 0
      { id := 1, email := "a@x.com", hashed_password := PyObj.pystr (Content.bh "pw1" 0),
        session_id := none, reset_token := none } (by decide) rfl,
   claim6_verify_totality_amended.2 c6state "e@x.com" "x" "nothash"
      { id := 1, email := "e@x.com", hashed_password := PyObj.pystr (Content.plain "nothash"),
        session_id := none, reset_token := none } (by decide) rfl⟩

/-- C7: destroy_session clears the session, so resolving the previous
token afterwards returns none (hypotheses: primary keys are unique, as
the autoincrement guarantees, and only the target user holds the
token); the call never raises whatever the store contains; on an id
with no row it is a silent no-op returning the store unchanged; and
running it a second time on the same id changes nothing and raises
nothing. -/
theorem claim7_destroy_session :
    (∀ (s : AuthState) (uid : Nat) (t : String),
      (s.users.map (fun v => v.id)).Nodup →
      (∀ v ∈ s.users, v.session_id = some t → v.id = uid) →
      (get_user_from_session_id (destroy_session s uid).2 (some t)).1 = none)
    ∧ (∀ (s : AuthState) (uid : Nat), (destroy_session s uid).1 = Except.ok ())
    ∧ (∀ (s : AuthState) (uid : Nat),
      find_user_by s (FieldVal.id uid) = Except.error PyError.noResultFound →
      destroy_session s uid = (Except.ok (), s))
    ∧ (∀ (s : AuthState) (uid : Nat),
      destroy_session (destroy_session s uid).2 uid
        = (Except.ok (), (destroy_session s uid).2)) := by
  refine ⟨?_, ?_, ?_, ?_⟩
  · intro s uid t hnd honly
    rcases hfil : s.users.filter (fun v => matchesField v (FieldVal.id uid)) with
      _ | ⟨a, _ | ⟨b, t2⟩⟩
    · have hfind : find_user_by s (FieldVal.id uid) = Except.error PyError.noResultFound := by
        simp [find_user_by, isColumnKey, hfil]
      have hnone : ∀ v ∈ s.users, v.session_id ≠ some t := by
        intro v hv hvt
        have hvid : v.id = uid := honly v hv hvt
        have : v ∈ s.users.filter (fun v => matchesField v (FieldVal.id uid)) :=
          List.mem_filter.mpr ⟨hv, by simp [matchesField, hvid]⟩
        rw [hfil] at this
        cases this
      simp only [destroy_session, hfind, get_user_from_session_id, resolve_result]
      have : find_user_by s (FieldVal.session_id (some t))
          = Except.error PyError.noResultFound := by
        rw [find_noRes_iff s (FieldVal.session_id (some t)) rfl]
        apply filter_of_none
        intro v hv
        simp only [matchesField, decide_eq_false_iff_not]
        exact hnone v hv
      rw [this]
    · have hfind : find_user_by s (FieldVal.id uid) = Except.ok a := by
        simp [find_user_by, isColumnKey, hfil]
      have haid : a.id = uid := by
        have : a ∈ s.users.filter (fun v => matchesField v (FieldVal.id uid)) := by
          rw [hfil]; simp
        simpa [matchesField] using (List.mem_filter.mp this).2
      have hfind2 : find_user_by s (FieldVal.id a.id) = Except.ok a := by
        rw [haid]; exact hfind
      simp only [destroy_session, hfind, update_user, hfind2, update_user_go,
        hasattrUser, replaceUser, doSetattr, if_true, get_user_from_session_id,
        resolve_result]
      have : find_user_by
          { users := s.users.map
              (fun v => if v.id = a.id then { v with session_id := none } else v),
            nextId := s.nextId, counter := s.counter }
          (FieldVal.session_id (some t)) = Except.error PyError.noResultFound := by
        rw [find_noRes_iff _ (FieldVal.session_id (some t)) rfl]
        have := filter_session_after_clear s.users a.id t (by rw [haid]; exact honly)
        simpa [matchesField] using this
      rw [this]
    · exact absurd hfil (fun h => no_two_rows_same_id s uid hnd a b t2 h)
  · intro s uid
    unfold destroy_session
    cases h : find_user_by s (FieldVal.id uid) <;> simp
  · intro s uid h
    simp only [destroy_session, h]
  · intro s uid
    rcases hfil : s.users.filter (fun v => matchesField v (FieldVal.id uid)) with
      _ | ⟨a, _ | ⟨b, t2⟩⟩
    · have hfind : find_user_by s (FieldVal.id uid) = Except.error PyError.noResultFound := by
        simp [find_user_by, isColumnKey, hfil]
      simp only [destroy_session, hfind]
    · have hfind : find_user_by s (FieldVal.id uid) = Except.ok a := by
        simp [find_user_by, isColumnKey, hfil]
      have haid : a.id = uid := by
        have : a ∈ s.users.filter (fun v => matchesField v (FieldVal.id uid)) := by
          rw [hfil]; simp
        simpa [matchesField] using (List.mem_filter.mp this).2
      have hfind2 : find_user_by s (FieldVal.id a.id) = Except.ok a := by
        rw [haid]; exact hfind
      have hpres : ∀ v : User,
          matchesField (if v.id = a.id then { v with session_id := none } else v)
            (FieldVal.id uid) = matchesField v (FieldVal.id uid) := by
        intro v
        by_cases hv : v.id = a.id
        · rw [if_pos hv]; simp [matchesField]
        · rw [if_neg hv]
      have hfilter2 :
          (s.users.map (fun v => if v.id = a.id then { v with session_id := none } else v)).filter
            (fun v => matchesField v (FieldVal.id uid)) = [{ a with session_id := none }] := by
        rw [filter_map_pres _ _ _ hpres, hfil]
        simp only [List.map_cons, List.map_nil]
        rw [if_pos trivial]
      have hfind3 : find_user_by
          { users := s.users.map
              (fun v => if v.id = a.id then { v with session_id := none } else v),
            nextId := s.nextId, counter := s.counter }
          (FieldVal.id uid) = Except.ok { a with session_id := none } := by
        simp [find_user_by, isColumnKey, hfilter2]
      have hfind4 : find_user_by
          { users := s.users.map
              (fun v => if v.id = a.id then { v with session_id := none } else v),
            nextId := s.nextId, counter := s.counter }
          (FieldVal.id a.id) = Except.ok { a with session_id := none } := by
        rw [show FieldVal.id a.id = FieldVal.id uid from by rw [haid]]
        exact hfind3
      have hmaps :
          (s.users.map (fun v => if v.id = a.id then { v with session_id := none } else v)).map
            (fun v => if v.id = a.id then { v with session_id := none } else v)
          = s.users.map (fun v => if v.id = a.id then { v with session_id := none } else v) := by
        rw [List.map_map]
        apply List.map_congr_left
        intro v _
        simp only [Function.comp]
        by_cases hv : v.id = a.id
        · rw [if_pos hv, if_pos hv]
        · rw [if_neg hv, if_neg hv]
      simp only [destroy_session, hfind, update_user, hfind2, update_user_go,
        hasattrUser, replaceUser, doSetattr, if_true, hfind3, hfind4, hmaps]
    · have hfind : find_user_by s (FieldVal.id uid)
          = Except.error PyError.multipleResultsFound := by
        simp [find_user_by, isColumnKey, hfil]
      simp only [destroy_session, hfind]

/-- Witness for C7 on the store with one active session. -/
theorem claim7_destroy_session_witness :
    (get_user_from_session_id (destroy_session sessionState 1).2 (some (uuidStr 1))).1 = none
    ∧ (destroy_session sessionState 1).1 = Except.ok ()
    ∧ destroy_session sessionState 99 = (Except.ok (), sessionState)
    ∧ destroy_session (destroy_session sessionState 1).2 1
        = (Except.ok (), (destroy_session sessionState 1).2) :=
  ⟨claim7_destroy_session.1 sessionState 1 (uuidStr 1) (by decide) (by decide),
   claim7_destroy_session.2.1 sessionState 1,
   claim7_destroy_session.2.2.1 sessionState 99 (by decide),
   claim7_destroy_session.2.2.2 sessionState 1⟩

/-- C8 counterexample: the tablename configuration attribute is exposed
by the User instance although it is not one of the five declared column
attributes of the record, so update_user accepts it without the
ValueError the claim requires for every non-declared key, leaves the
store unchanged, and only a key that fails hasattr raises. -/
theorem claim8_counterexample :
    (update_user c8state 1
        [FieldVal.nonColumn "__tablename__" (PyObj.pystr (Content.plain "x"))]).1
      = Except.ok ()
    ∧ (update_user c8state 1
        [FieldVal.nonColumn "__tablename__" (PyObj.pystr (Content.plain "x"))]).2
      = c8state
    ∧ "__tablename__" ∉ userColumns
    ∧ (update_user c8state 1 [FieldVal.nonColumn "nope" PyObj.pynone]).1
      = Except.error (PyError.valueError ("nope" ++ " is not a valid attribute of User")) := by
  refine ⟨rfl, ?_, by decide, rfl⟩
  show replaceUser c8state 1 _ = c8state
  simp [replaceUser, c8state, c8row, doSetattr]

/-- C8 amended: for an existing user id, update_user raises ValueError
exactly when some key in kwargs fails the Python hasattr test on the
user object; every declared column attribute passes the test and is
written (shown here for session_id), but some non-column attributes of
the class, such as the tablename attribute, also pass, are accepted
without error and write no record field. -/
theorem claim8_update_user_amended (s : AuthState) (uid : Nat) (u : User)
    (kwargs : List FieldVal)
    (hfind : find_user_by s (FieldVal.id uid) = Except.ok u) :
    ((update_user s uid kwargs).1 = Except.ok () ↔ ∀ k ∈ kwargs, hasattrUser k = true)
    ∧ (∀ v : Option String,
        (update_user s uid [FieldVal.session_id v]).2.users
          = s.users.map (fun w => if w.id = uid then { w with session_id := v } else w))
    ∧ hasattrUser (FieldVal.nonColumn "__tablename__" PyObj.pynone) = true
    ∧ "__tablename__" ∉ userColumns := by
  refine ⟨?_, ?_, by decide, by decide⟩
  · simp only [update_user, hfind]
    exact update_user_go_ok_iff uid s kwargs
  · intro v
    simp only [update_user, hfind, update_user_go, hasattrUser, replaceUser,
      doSetattr, if_true]

/-- Witness for the amended C8 on a one-row store. -/
theorem claim8_update_user_amended_witness :
    ((update_user c8state 1 [FieldVal.session_id (some "s")]).1 = Except.ok ()
      ↔ ∀ k ∈ [FieldVal.session_id (some "s")], hasattrUser k = true)
    ∧ (∀ v : Option String,
        (update_user c8state 1 [FieldVal.session_id v]).2.users
          = c8state.users.map (fun w => if w.id = 1 then { w with session_id := v } else w))
    ∧ hasattrUser (FieldVal.nonColumn "__tablename__" PyObj.pynone) = true
    ∧ "__tablename__" ∉ userColumns :=
  claim8_update_user_amended c8state 1 c8row [FieldVal.session_id (some "s")] (by decide)

/-- C9: the two password-writing paths persist different
representations.  register_user stores the utf-8-decoded str of the
bcrypt hash, while update_password writes the raw bytes returned by the
hash and clears the reset token, so for the same plaintext the stored
hashed_password value is a str on one path and a bytes value on the
other. -/
theorem claim9_hash_representation_mismatch :
    (∀ (s : AuthState) (e p : String),
      find_user_by s (FieldVal.email e) = Except.error PyError.noResultFound →
      (register_user s e p).1 = Except.ok
        { id := s.nextId, email := e,
          hashed_password := PyObj.pystr (Content.bh p s.counter),
          session_id := none, reset_token := none })
    ∧ (∀ (s : AuthState) (tok p : String) (u : User),
      find_user_by s (FieldVal.reset_token (some tok)) = Except.ok u →
      (s.users.map (fun v => v.id)).Nodup →
      (update_password s tok p).1 = Except.ok ()
      ∧ ∀ w ∈ (update_password s tok p).2.users, w.id = u.id →
          w.hashed_password = PyObj.pybytes (Content.bh p s.counter)
          ∧ w.reset_token = none) := by
  constructor
  · intro s e p h
    simp only [register_user, h, hash_password, gensalt, hashpw, pyDecodeUtf8, add_user]
  · intro s tok p u h hnd
    obtain ⟨hm, hmf⟩ := find_ok_mem _ _ _ h
    have hfind_id : find_user_by
        { users := s.users, nextId := s.nextId, counter := s.counter + 1 }
        (FieldVal.id u.id) = Except.ok u := by
      rw [find_ok_iff { users := s.users, nextId := s.nextId, counter := s.counter + 1 }
        (FieldVal.id u.id) u rfl]
      simpa [matchesField] using filter_id_singleton s.users u hm hnd
    constructor
    · simp only [update_password, h, hash_password, gensalt, hashpw, update_user,
        hfind_id, update_user_go, hasattrUser, replaceUser, doSetattr, if_true]
    · simp only [update_password, h, hash_password, gensalt, hashpw, update_user,
        hfind_id, update_user_go, hasattrUser, replaceUser, doSetattr, if_true]
      intro w hw hwid
      obtain ⟨w1, hw1, rfl⟩ := List.mem_map.mp hw
      obtain ⟨v, hv, rfl⟩ := List.mem_map.mp hw1
      by_cases hvid : v.id = u.id
      · rw [if_pos hvid]
        rw [if_pos hvid]
        exact ⟨rfl, rfl⟩
      · rw [if_neg hvid] at hwid ⊢
        rw [if_neg hvid] at hwid ⊢
        exact absurd hwid hvid

/-- Witness for C9: registration on the empty store yields a str hash,
redeeming the issued reset token rewrites the row with a bytes hash. -/
theorem claim9_hash_representation_mismatch_witness :
    (register_user emptyState "a@x.com" "pw1").1 = Except.ok
      { id := 1, email := "a@x.com", hashed_password := PyObj.pystr (Content.bh "pw1" 0),
        session_id := none, reset_token := none }
    ∧ ((update_password resetReqState (uuidStr 1) "pw2").1 = Except.ok ()
      ∧ ∀ w ∈ (update_password resetReqState (uuidStr 1) "pw2").2.users, w.id = 1 →
          w.hashed_password = PyObj.pybytes (Content.bh "pw2" 2)
          ∧ w.reset_token = none) :=
  ⟨claim9_hash_representation_mismatch.1 emptyState "a@x.com" "pw1" (by decide),
   claim9_hash_representation_mismatch.2 resetReqState (uuidStr 1) "pw2"
      { id := 1, email := "a@x.com", hashed_password := PyObj.pystr (Content.bh "pw1" 0),
        session_id := none, reset_token := some (uuidStr 1) } (by decide) (by decide)⟩

end AuthService
